import Mathlib

/-!
Verification development for the dgen-ping LLM proxy service.

Shallow embedding of the core logic of the repository:
  - text helpers and token estimation (`proxy.py`, `ProxyService._estimate_tokens`);
  - the request/retry loop of `ProxyService.proxy_request` (`proxy.py`);
  - the endpoint-level input validation of `llm_completion` (`main.py`);
  - the rate limiter `RateLimitMiddleware` (`middleware.py`);
  - the telemetry store `Database` with CSV fallback (`db.py`).

Python machine details modelled as follows: Python `int` and non-negative
counters become `Nat`; latencies and rates (Python floats used only for
averaging) become `Rat`; `None`-able values become `Option`; text becomes
`String` / `List Char`.  `int(words * 1.3)` is modelled exactly as
`13 * words / 10` in `Nat` (for word counts below about 10^15 the IEEE
double computation truncates to the same value).
-/

namespace DgenPing

/-- Python `str.strip()`: drop leading and trailing whitespace. -/
def pyStrip (s : List Char) : List Char :=
  ((s.dropWhile Char.isWhitespace).reverse.dropWhile Char.isWhitespace).reverse

/-- `payload.prompt.strip()` at the `String` level. -/
def stripS (s : String) : String :=
  (pyStrip s.toList).asString

/-- Auxiliary word counter: counts maximal runs of non-whitespace characters,
carrying a flag saying whether the previous character was inside a word. -/
def wordCountAux : List Char → Bool → Nat
  | [], _ => 0
  | c :: t, inw =>
    if c.isWhitespace then wordCountAux t false
    else (if inw then 0 else 1) + wordCountAux t true

/-- Python `len(text.split())`: the number of whitespace-separated words. -/
def wordCount (s : List Char) : Nat := wordCountAux s false

/-- Substring test: `needle in hay` on character lists (Python `in` on str). -/
def hasSub (needle : List Char) : List Char → Bool
  | [] => needle.isEmpty
  | c :: t => needle.isPrefixOf (c :: t) || hasSub needle t

/-- `ProxyService._estimate_tokens` (proxy.py lines 336-362):
empty text gives 0; otherwise the average of a character-based estimate
`max(1, chars // 4)` and a word-based estimate `max(1, int(words * 1.3))`,
floored at 1. -/
def estimate_tokens (text : String) : Nat :=
  let cs := text.toList
  if cs.isEmpty then 0
  else
    let words := wordCount cs
    let chars := cs.length
    let charBased := max 1 (chars / 4)
    let wordBased := max 1 (13 * words / 10)
    max 1 ((charBased + wordBased) / 2)

/-- Modelled from the spec's words (for refinement comparison only, not from
the source): `tokens = max(1, round((chars/4 + words*1.3)/2))`.  Written over
`Nat` as `max 1 ((5*chars + 26*words + 20) / 40)`; the lemma
`specTokenEstimate_round` below proves this equal to the literal
`round`-based formula. -/
def specTokenEstimate (text : String) : Nat :=
  let cs := text.toList
  max 1 ((5 * cs.length + 26 * wordCount cs + 20) / 40)

/-- The `Nat` form of `specTokenEstimate` agrees with the spec's literal
formula `max(1, round((chars/4 + words*1.3)/2))` over the rationals. -/
theorem specTokenEstimate_round (text : String) :
    (specTokenEstimate text : Int) =
      max 1 (round (((text.toList.length : Rat) / 4 +
        (wordCount text.toList : Rat) * 13 / 10) / 2)) := by
  unfold specTokenEstimate
  rw [Nat.cast_max]
  congr 1
  rw [round_eq]
  have h : ((text.toList.length : Rat) / 4 +
      (wordCount text.toList : Rat) * 13 / 10) / 2 + 1 / 2 =
      ((5 * text.toList.length + 26 * wordCount text.toList + 20 : Nat) : Rat) /
        ((40 : Nat) : Rat) := by
    push_cast
    ring
  rw [h, Rat.floor_natCast_div_natCast, Int.natCast_div]

/-! ## The request proxy (`proxy.py`, `ProxyService.proxy_request`) -/

/-- Outcome of one downstream `llm_connection.generate_content` call made
through `asyncio.wait_for` (proxy.py lines 145-158): a completion value
(possibly `None`), a timeout of the `wait_for`, or a raised exception with
its message text. -/
inductive BackendResult where
  | ok (completion : Option String)
  | timeout
  | err (msg : String)

/-- The in-flight error inside the attempt loop: either an `HTTPException`
(carrying its status code and detail) or a generic exception (carrying
`str(e)`). -/
inductive AttErr where
  | http (status : Nat) (detail : String)
  | generic (msg : String)

/-- Lowercased character list of a string (Python `s.lower()`). -/
def lowerChars (s : String) : List Char := s.toList.map Char.toLower

/-- Final status-code classification after all attempts are exhausted
(proxy.py lines 322-334): an `HTTPException` is re-raised as is; otherwise
503 when `"timeout" in error_msg.lower()`, else 500. -/
def classifyError : AttErr → Nat
  | AttErr.http s _ => s
  | AttErr.generic m => if hasSub "timeout".toList (lowerChars m) then 503 else 500

/-- One attempt body (proxy.py lines 145-165): a `wait_for` timeout is raised
as `HTTPException(503, ...)`; a `None` completion raises
`ValueError("LLM returned None response")`; any backend exception propagates
with its message; otherwise the completion string is produced. -/
def attemptResult : BackendResult → Sum String AttErr
  | BackendResult.ok (some c) => Sum.inl c
  | BackendResult.ok none => Sum.inr (AttErr.generic "LLM returned None response")
  | BackendResult.timeout => Sum.inr (AttErr.http 503 "LLM request timed out after 60 seconds")
  | BackendResult.err m => Sum.inr (AttErr.generic m)

/-- Caller-visible outcome of `proxy_request`: a success response (carrying
the completion text and the prompt/completion token estimates placed in the
response metadata), or a raised `HTTPException` with its status code. -/
inductive ProxyResult where
  | success (completion : String) (prompt_tokens completion_tokens : Nat)
  | httpError (status : Nat)
deriving DecidableEq

/-- Observable trace of one `proxy_request` call: its result, the number of
downstream invocations, the number of `llm_attempt_failure` telemetry events
emitted, the backoff sleeps performed (in seconds), and the number of
semaphore acquisitions and releases. -/
structure ProxyTrace where
  result : ProxyResult
  invocations : Nat
  attempt_failures : Nat
  sleeps : List Nat
  acquires : Nat
  releases : Nat
deriving DecidableEq

/-- The retry loop of `proxy_request` (proxy.py lines 134-334), holding the
semaphore.  `attempt` is the 1-based attempt counter; the second argument is
the number of attempts remaining (`RETRY_ATTEMPTS - attempt + 1`).  On
success the response carries `prompt_tokens = max(1, estimate(prompt))` and
`completion_tokens = max(1, estimate(completion)) if completion else 0`
(lines 173-174).  On failure the attempt is logged; with attempts remaining
the task sleeps `min(attempt * 2, 10)` seconds and retries (lines 269-302),
otherwise the error is classified and raised (lines 304-334).
The zero-remaining case is unreachable for a positive retry count. -/
def proxy_loop (backend : Nat → BackendResult) (p : String) :
    Nat → Nat → ProxyTrace
  | _, 0 =>
    { result := ProxyResult.httpError 500, invocations := 0,
      attempt_failures := 0, sleeps := [], acquires := 0, releases := 0 }
  | attempt, rem + 1 =>
    match attemptResult (backend attempt) with
    | Sum.inl c =>
      { result := ProxyResult.success c (max 1 (estimate_tokens p))
          (if c.isEmpty then 0 else max 1 (estimate_tokens c)),
        invocations := 1, attempt_failures := 0, sleeps := [],
        acquires := 0, releases := 0 }
    | Sum.inr e =>
      if rem = 0 then
        { result := ProxyResult.httpError (classifyError e), invocations := 1,
          attempt_failures := 1, sleeps := [], acquires := 0, releases := 0 }
      else
        let t := proxy_loop backend p (attempt + 1) rem
        { result := t.result, invocations := t.invocations + 1,
          attempt_failures := t.attempt_failures + 1,
          sleeps := min (attempt * 2) 10 :: t.sleeps,
          acquires := 0, releases := 0 }

/-- `ProxyService.proxy_request` (proxy.py lines 82-334): strips the prompt;
an empty stripped prompt raises `HTTPException(400)` before the semaphore is
touched (line 111); otherwise the retry loop runs inside
`async with ProxyService._semaphore` (line 133), which acquires one slot and
releases it on every exit path. -/
def proxy_request (retry : Nat) (backend : Nat → BackendResult)
    (promptRaw : String) : ProxyTrace :=
  let prompt := stripS promptRaw
  if prompt.isEmpty then
    { result := ProxyResult.httpError 400, invocations := 0,
      attempt_failures := 0, sleeps := [], acquires := 0, releases := 0 }
  else
    let t := proxy_loop backend prompt 1 retry
    { t with acquires := t.acquires + 1, releases := t.releases + 1 }

/-- The `llm_completion` endpoint validation (main.py lines 386-407): an
empty or whitespace-only prompt and a prompt longer than 50,000 characters
are each rejected with `HTTPException(400)` before `proxy_request` is
invoked. -/
def llm_completion (retry : Nat) (backend : Nat → BackendResult)
    (prompt : String) : ProxyTrace :=
  if prompt.isEmpty || (stripS prompt).isEmpty then
    { result := ProxyResult.httpError 400, invocations := 0,
      attempt_failures := 0, sleeps := [], acquires := 0, releases := 0 }
  else if 50000 < prompt.length then
    { result := ProxyResult.httpError 400, invocations := 0,
      attempt_failures := 0, sleeps := [], acquires := 0, releases := 0 }
  else
    proxy_request retry backend prompt

/-! ## The telemetry store (`db.py`, class `Database`) -/

/-- A telemetry event/row, keeping the fields that `db.py` aggregates over:
`event_type`, `metadata.status_code`, `metadata.latency_ms` (optional),
`metadata.total_tokens` (optional), and the timestamp (modelled as seconds;
ISO-8601 strings compare chronologically, so `Nat` order is faithful). -/
structure Event where
  event_type : String
  status_code : Nat
  latency_ms : Option Rat
  total_tokens : Option Nat
  timestamp : Nat
deriving DecidableEq

/-- The aggregate metrics dictionary built by `Database.get_metrics`
(db.py lines 507-515); `database_status` holds the literal tag string. -/
structure Metrics where
  requests_total : Nat
  requests_last_hour : Nat
  avg_latency_ms : Rat
  error_rate : Rat
  token_usage_total : Nat
  llm_runs_total : Nat
  database_status : String
deriving DecidableEq

/-- The zero-valued metrics dictionary as first built at db.py lines 507-515,
before any backend computation, tagged with the given status. -/
def zeroMetrics (status : String) : Metrics :=
  { requests_total := 0, requests_last_hour := 0, avg_latency_ms := 0,
    error_rate := 0, token_usage_total := 0, llm_runs_total := 0,
    database_status := status }

/-- State of the `Database` singleton: the fallback flag, whether the CSV
fallback directory exists on disk, the primary `telemetry` collection, the
primary `connection_logs` collection, the CSV fallback file (`none` when the
file does not exist yet), and the metrics cache with its last-update time. -/
structure DbState where
  use_csv_fallback : Bool
  csv_dir_exists : Bool
  primary : List Event
  connection_logs : List Event
  csvFile : Option (List Event)
  metrics_cache : Metrics
  metrics_last_update : Nat
deriving DecidableEq

/-- `Database._log_to_csv` (db.py lines 463-499): appends the flattened event
row to the day's CSV file, creating the file (with its header row) when it
does not exist. -/
def log_to_csv (e : Event) (st : DbState) : DbState :=
  { st with csvFile := some (st.csvFile.getD [] ++ [e]) }

/-- `Database.log_telemetry` (db.py lines 364-408): in fallback mode, write
to CSV; otherwise attempt the primary insert (`primaryOk` says whether it
raises), and on any exception set `_use_csv_fallback = True`, create the CSV
directory (`_setup_csv_fallback`) and write the same event to CSV. -/
def log_telemetry (primaryOk : Bool) (e : Event) (st : DbState) : DbState :=
  if st.use_csv_fallback then log_to_csv e st
  else if primaryOk then { st with primary := st.primary ++ [e] }
  else log_to_csv e { st with use_csv_fallback := true, csv_dir_exists := true }

/-- `Database.log_connection_event` (db.py lines 410-437): same dual-path
write, targeting the `connection_logs` collection in primary mode. -/
def log_connection_event (primaryOk : Bool) (e : Event) (st : DbState) : DbState :=
  if st.use_csv_fallback then log_to_csv e st
  else if primaryOk then { st with connection_logs := st.connection_logs ++ [e] }
  else log_to_csv e { st with use_csv_fallback := true, csv_dir_exists := true }

/-- Event-type filter for request counting (db.py lines 529, 541, 547):
`event_type in ["llm_request", "direct_request"]`. -/
def isRequestEvent (e : Event) : Bool :=
  e.event_type == "llm_request" || e.event_type == "direct_request"

/-- The aggregates computed by `get_metrics` over the rows of the active
backend.  The CSV branch (db.py lines 529-556) and the MongoDB branch
(lines 563-613) compute the same quantities: request totals, last-hour
totals, average latency over rows that carry one, error rate over rows with
status ≥ 400, token usage over `llm_request`/`llm_run` rows, and the
`llm_run` count.  Fields with no data keep their value from `base`. -/
def aggregateMetrics (now : Nat) (rows : List Event) (base : Metrics) : Metrics :=
  let reqs := rows.filter isRequestEvent
  let lats := reqs.filterMap (fun r => r.latency_ms)
  let errs := (reqs.filter (fun r => 400 ≤ r.status_code)).length
  let toks := ((rows.filter (fun r =>
      r.event_type == "llm_request" || r.event_type == "llm_run")).filterMap
      (fun r => r.total_tokens)).sum
  { requests_total := reqs.length
    requests_last_hour :=
      ((rows.filter (fun r => now - 3600 ≤ r.timestamp)).filter isRequestEvent).length
    avg_latency_ms :=
      if lats.length ≠ 0 then lats.sum / (lats.length : Rat) else base.avg_latency_ms
    error_rate :=
      if 0 < reqs.length then (errs : Rat) / (reqs.length : Rat) else base.error_rate
    token_usage_total := toks
    llm_runs_total := (rows.filter (fun r => r.event_type == "llm_run")).length
    database_status := base.database_status }

/-- The CSV-fallback branch of `get_metrics` (db.py lines 517-558 plus the
cache update at 629-632), entered with `_use_csv_fallback` true so the base
dictionary is tagged `"fallback"`: when today's CSV file exists its rows are
aggregated; a read/computation failure (`csvOk = false`) is caught and
logged, leaving the zero-valued dictionary; either way the cache is
updated. -/
def fb_branch (now : Nat) (csvOk : Bool) (st : DbState) : Metrics × DbState :=
  let base := zeroMetrics "fallback"
  let m :=
    if csvOk then
      match st.csvFile with
      | some rows => aggregateMetrics now rows base
      | none => base
    else base
  (m, { st with metrics_cache := m, metrics_last_update := now })

/-- `Database.get_metrics` (db.py lines 501-633).  The cache is returned when
it is younger than 60 seconds.  Otherwise: in fallback mode the CSV branch
runs; in connected mode the MongoDB aggregation runs (`mongoOk` says whether
any of it raises), and on failure the handler at lines 622-627 sets
`_use_csv_fallback = True` and recurses **only when the CSV directory
exists** — the recursive call finds the (unchanged, stale) cache and takes
the fallback branch, which `fb_branch` states directly; when the directory
does not exist, control falls through to the cache update with the
zero-valued dictionary still tagged with the status computed at entry
(`"connected"`). -/
def get_metrics (now : Nat) (mongoOk csvOk : Bool) (st : DbState) :
    Metrics × DbState :=
  if now - st.metrics_last_update < 60 then (st.metrics_cache, st)
  else if st.use_csv_fallback then fb_branch now csvOk st
  else if mongoOk then
    let m := aggregateMetrics now st.primary (zeroMetrics "connected")
    (m, { st with metrics_cache := m, metrics_last_update := now })
  else if st.csv_dir_exists then
    fb_branch now csvOk { st with use_csv_fallback := true }
  else
    (zeroMetrics "connected",
      { st with metrics_cache := zeroMetrics "connected", metrics_last_update := now })

/-- Repeated `log_telemetry` calls with the primary backend unavailable
(every primary write raises). -/
def run_log (es : List Event) (st : DbState) : DbState :=
  es.foldl (fun s e => log_telemetry false e s) st

/-- One externally-triggered operation on the `Database` singleton, with the
environment outcomes it would observe (whether the primary write / the
MongoDB metrics computation / the CSV metrics computation would succeed). -/
inductive DbOp where
  | logTel (primaryOk : Bool) (e : Event)
  | logConn (primaryOk : Bool) (e : Event)
  | getMetrics (now : Nat) (mongoOk csvOk : Bool)

/-- Run one operation, also reporting whether the operation attempted any
read or write against the primary backend: `log_telemetry` and
`log_connection_event` attempt the primary exactly when the fallback flag is
unset (db.py lines 366-369, 422-427), and `get_metrics` attempts it exactly
when the flag is unset and the cache is stale (lines 504, 517, 560). -/
def db_step (op : DbOp) (st : DbState) : DbState × Bool :=
  match op with
  | DbOp.logTel pOk e => (log_telemetry pOk e st, !st.use_csv_fallback)
  | DbOp.logConn pOk e => (log_connection_event pOk e st, !st.use_csv_fallback)
  | DbOp.getMetrics now mOk cOk =>
    ((get_metrics now mOk cOk st).2,
      !st.use_csv_fallback && !(now - st.metrics_last_update < 60 : Bool))

/-- Run a sequence of operations, collecting the primary-touch flags. -/
def run_steps : List DbOp → DbState → DbState × List Bool
  | [], st => (st, [])
  | op :: ops, st =>
    let r := db_step op st
    let rest := run_steps ops r.1
    (rest.1, r.2 :: rest.2)

/-! ## The rate limiter (`middleware.py`, class `RateLimitMiddleware`) -/

/-- One entry of the `self.clients` dict: client key, request counter and
window start time (seconds). -/
structure ClientEntry where
  key : Nat
  requests : Nat
  window_start : Nat
deriving DecidableEq

/-- Decision of `RateLimitMiddleware.dispatch` for one request: pass the
request on, or answer 429 with the `retry_after` hint. -/
inductive RateDecision where
  | admitted
  | rejected (retry_after : Nat)
deriving DecidableEq

/-- `RateLimitMiddleware._cleanup` (middleware.py lines 130-135): delete
every client entry whose window started 60 or more seconds ago. -/
def rl_cleanup (now : Nat) (cs : List ClientEntry) : List ClientEntry :=
  cs.filter (fun c => now - c.window_start < 60)

/-- In-place update of one client's entry (`self.clients[ip] = ...`). -/
def rl_set (ip requests ws : Nat) (cs : List ClientEntry) : List ClientEntry :=
  cs.map (fun c => if c.key == ip then
    { key := ip, requests := requests, window_start := ws } else c)

/-- `RateLimitMiddleware.dispatch` (middleware.py lines 86-128) for a
non-exempt path: clean up stale entries, then — for a known client inside
its window — reject with `retry_after = 60 - int(now - window_start)` once
the counter has reached the limit, or increment the counter; for a client
whose window has elapsed, reset the window; for an unknown client, create a
fresh entry. -/
def rl_dispatch (limit : Nat) (ip : Nat) (now : Nat) (st : List ClientEntry) :
    RateDecision × List ClientEntry :=
  let cs := rl_cleanup now st
  match cs.find? (fun c => c.key == ip) with
  | some entry =>
    if now - entry.window_start < 60 then
      if limit ≤ entry.requests then
        (RateDecision.rejected (60 - (now - entry.window_start)), cs)
      else
        (RateDecision.admitted, rl_set ip (entry.requests + 1) entry.window_start cs)
    else
      (RateDecision.admitted, rl_set ip 1 now cs)
  | none =>
    (RateDecision.admitted, { key := ip, requests := 1, window_start := now } :: cs)

/-! ## Helper lemmas -/

/-- A string that is not `isEmpty` has a nonempty character list. -/
lemma toList_ne_nil_of_not_isEmpty (s : String) (h : s.isEmpty = false) :
    s.toList.isEmpty = false := by
  rcases hL : s.toList with _ | _
  · exfalso
    have hs : s = "" := by
      have := congrArg List.asString hL
      rwa [String.asString_toList] at this
    rw [hs] at h
    exact absurd h (by decide)
  · rfl

/-- For nonempty text, `estimate_tokens` is the integer-arithmetic formula
of proxy.py lines 350-360. -/
lemma estimate_tokens_eq (s : String) (h : s.isEmpty = false) :
    estimate_tokens s =
      max 1 ((max 1 (s.toList.length / 4) +
        max 1 (13 * wordCount s.toList / 10)) / 2) := by
  have hl := toList_ne_nil_of_not_isEmpty s h
  simp only [estimate_tokens, hl, Bool.false_eq_true, if_false]

/-- `estimate_tokens` is at least 1 on nonempty text, so the extra
`max(1, ...)` at proxy.py line 173 is the identity. -/
lemma one_le_estimate_tokens (s : String) (h : s.isEmpty = false) :
    1 ≤ estimate_tokens s := by
  rw [estimate_tokens_eq s h]
  omega

/-- The retry loop itself never touches the semaphore counters: acquisition
and release happen only at the `async with` boundary in `proxy_request`. -/
lemma proxy_loop_acq_rel (backend : Nat → BackendResult) (p : String) :
    ∀ rem attempt, (proxy_loop backend p attempt rem).acquires = 0 ∧
      (proxy_loop backend p attempt rem).releases = 0 := by
  intro rem
  induction rem with
  | zero =>
    intro attempt
    simp [proxy_loop]
  | succ n ih =>
    intro attempt
    simp only [proxy_loop]
    rcases hA : attemptResult (backend attempt) with c | e
    · simp
    · by_cases hn : n = 0
      · simp [hn]
      · simp [hn]

/-- Characterization of the retry loop against a backend every one of whose
attempts produces the same error `e`: all `rem + 1` remaining attempts are
consumed, each logs an attempt failure, the backoff sleeps are
`min(attempt*2, 10)` for the non-final attempts, and the final status is
`classifyError e`. -/
lemma proxy_loop_const_err (backend : Nat → BackendResult) (p : String)
    (e : AttErr) (h : ∀ a, attemptResult (backend a) = Sum.inr e) :
    ∀ rem attempt, proxy_loop backend p attempt (rem + 1) =
      { result := ProxyResult.httpError (classifyError e),
        invocations := rem + 1, attempt_failures := rem + 1,
        sleeps := (List.range rem).map (fun i => min ((attempt + i) * 2) 10),
        acquires := 0, releases := 0 } := by
  intro rem
  induction rem with
  | zero =>
    intro attempt
    simp [proxy_loop, h attempt]
  | succ n ih =>
    intro attempt
    have hstep : proxy_loop backend p attempt (n + 1 + 1) =
        { result := (proxy_loop backend p (attempt + 1) (n + 1)).result,
          invocations := (proxy_loop backend p (attempt + 1) (n + 1)).invocations + 1,
          attempt_failures :=
            (proxy_loop backend p (attempt + 1) (n + 1)).attempt_failures + 1,
          sleeps := min (attempt * 2) 10 ::
            (proxy_loop backend p (attempt + 1) (n + 1)).sleeps,
          acquires := 0, releases := 0 } := by
      conv_lhs => rw [proxy_loop]
      rw [h attempt]
      simp
    have hs : (List.range (n + 1)).map (fun i => min ((attempt + i) * 2) 10) =
        min (attempt * 2) 10 ::
          (List.range n).map (fun i => min ((attempt + 1 + i) * 2) 10) := by
      rw [List.range_succ_eq_map, List.map_cons, List.map_map]
      simp only [Nat.add_zero]
      congr 1
      apply List.map_congr_left
      intro i _
      simp only [Function.comp]
      omega
    rw [hstep, ih (attempt + 1), hs]

/-- First-attempt success: the loop returns at once with the response built
at proxy.py lines 173-248. -/
lemma proxy_loop_first_success (backend : Nat → BackendResult) (p c : String)
    (h : attemptResult (backend 1) = Sum.inl c) (n : Nat) :
    proxy_loop backend p 1 (n + 1) =
      { result := ProxyResult.success c (max 1 (estimate_tokens p))
          (if c.isEmpty then 0 else max 1 (estimate_tokens c)),
        invocations := 1, attempt_failures := 0, sleeps := [],
        acquires := 0, releases := 0 } := by
  conv_lhs => rw [proxy_loop]
  rw [h]

/-- With a nonempty stripped prompt, `proxy_request` runs the loop inside
the semaphore scope: the trace is the loop's trace with one acquisition and
one release. -/
lemma proxy_request_of_ne (retry : Nat) (backend : Nat → BackendResult)
    (pr : String) (h : (stripS pr).isEmpty = false) :
    proxy_request retry backend pr =
      { result := (proxy_loop backend (stripS pr) 1 retry).result,
        invocations := (proxy_loop backend (stripS pr) 1 retry).invocations,
        attempt_failures := (proxy_loop backend (stripS pr) 1 retry).attempt_failures,
        sleeps := (proxy_loop backend (stripS pr) 1 retry).sleeps,
        acquires := 1, releases := 1 } := by
  have ha := proxy_loop_acq_rel backend (stripS pr) retry 1
  simp only [proxy_request, h, Bool.false_eq_true, if_false]
  rw [ha.1, ha.2]

/-! ## Claim C2 — retry bound and final status for an always-erroring backend -/

/-- C2 counterexample: a backend that raises `ValueError("boom")` on every
invocation is retried to exhaustion but the final failure is the
500-equivalent (`InternalError`), not the 503-equivalent
(`ServiceUnavailable`) that the claim asserts for every always-erroring
backend. -/
theorem C2_retry_bound_cex :
    (proxy_request 3 (fun _ => BackendResult.err "boom") "hi").result =
      ProxyResult.httpError 500 ∧
    ProxyResult.httpError (500 : Nat) ≠ ProxyResult.httpError 503 := by
  constructor
  · decide
  · decide

/-- C2 (amended): for a downstream backend that raises an error with message
`msg` on every invocation, `proxy_request` invokes the backend exactly
`retry` (= RETRY_ATTEMPTS) times, sleeps `min(attempt*2, 10)` seconds after
attempts `1 .. retry-1`, and then raises a 503-equivalent
(`ServiceUnavailable`) failure when `"timeout"` occurs in the lowercased
error text, and a 500-equivalent (`InternalError`) failure otherwise. -/
theorem C2_retry_bound_amended (retry : Nat) (hr : 1 ≤ retry) (msg pr : String)
    (hp : (stripS pr).isEmpty = false) :
    (proxy_request retry (fun _ => BackendResult.err msg) pr).invocations = retry ∧
    (proxy_request retry (fun _ => BackendResult.err msg) pr).attempt_failures = retry ∧
    (proxy_request retry (fun _ => BackendResult.err msg) pr).sleeps =
      (List.range (retry - 1)).map (fun i => min ((1 + i) * 2) 10) ∧
    (proxy_request retry (fun _ => BackendResult.err msg) pr).result =
      ProxyResult.httpError
        (if hasSub "timeout".toList (lowerChars msg) then 503 else 500) := by
  obtain ⟨n, rfl⟩ : ∃ n, retry = n + 1 := ⟨retry - 1, by omega⟩
  rw [proxy_request_of_ne _ _ _ hp]
  rw [proxy_loop_const_err (fun _ => BackendResult.err msg) (stripS pr)
    (AttErr.generic msg) (fun a => rfl) n 1]
  simp [classifyError]

/-- Witness for C2 at a concrete always-erroring backend. -/
theorem C2_retry_bound_witness :
    (proxy_request 3 (fun _ => BackendResult.err "boom") "hi").invocations = 3 ∧
    (proxy_request 3 (fun _ => BackendResult.err "boom") "hi").attempt_failures = 3 ∧
    (proxy_request 3 (fun _ => BackendResult.err "boom") "hi").sleeps =
      (List.range 2).map (fun i => min ((1 + i) * 2) 10) ∧
    (proxy_request 3 (fun _ => BackendResult.err "boom") "hi").result =
      ProxyResult.httpError
        (if hasSub "timeout".toList (lowerChars "boom") then 503 else 500) :=
  C2_retry_bound_amended 3 (by decide) "boom" "hi" (by decide)

/-! ## Claim C3 — null/empty completions -/

/-- C3 counterexample: a backend returning the empty-string completion is
treated as a success (no attempt-failure event, no retry), contradicting the
claim that an empty completion is treated as an error. -/
theorem C3_empty_completion_cex :
    (proxy_request 3 (fun _ => BackendResult.ok (some "")) "hi").result =
      ProxyResult.success "" 1 0 ∧
    (proxy_request 3 (fun _ => BackendResult.ok (some "")) "hi").attempt_failures = 0 ∧
    (proxy_request 3 (fun _ => BackendResult.ok (some "")) "hi").invocations = 1 := by
  refine ⟨by decide, by decide, by decide⟩

/-- C3 (amended): a `None` completion is treated as an error — every such
attempt emits an attempt-failure event and is retried to exhaustion, ending
in the 500-equivalent failure — but an empty-string completion is returned
as a success response with `completion_tokens = 0` and no attempt-failure
event. -/
theorem C3_empty_completion_amended (retry : Nat) (hr : 1 ≤ retry)
    (pr c : String) (hp : (stripS pr).isEmpty = false) :
    ((proxy_request retry (fun _ => BackendResult.ok none) pr).result =
        ProxyResult.httpError 500 ∧
      (proxy_request retry (fun _ => BackendResult.ok none) pr).attempt_failures =
        retry) ∧
    (proxy_request retry (fun _ => BackendResult.ok (some c)) pr).attempt_failures = 0 ∧
    (proxy_request retry (fun _ => BackendResult.ok (some "")) pr).result =
      ProxyResult.success "" (max 1 (estimate_tokens (stripS pr))) 0 := by
  obtain ⟨n, rfl⟩ : ∃ n, retry = n + 1 := ⟨retry - 1, by omega⟩
  refine ⟨?_, ?_, ?_⟩
  · rw [proxy_request_of_ne _ _ _ hp]
    rw [proxy_loop_const_err (fun _ => BackendResult.ok none) (stripS pr)
      (AttErr.generic "LLM returned None response") (fun a => rfl) n 1]
    exact ⟨rfl, rfl⟩
  · rw [proxy_request_of_ne _ _ _ hp]
    rw [proxy_loop_first_success (fun _ => BackendResult.ok (some c))
      (stripS pr) c rfl n]
  · rw [proxy_request_of_ne _ _ _ hp]
    rw [proxy_loop_first_success (fun _ => BackendResult.ok (some ""))
      (stripS pr) "" rfl n]
    rfl

/-- Witness for C3 at concrete inputs. -/
theorem C3_empty_completion_witness :
    (((proxy_request 2 (fun _ => BackendResult.ok none) "hi").result =
        ProxyResult.httpError 500 ∧
      (proxy_request 2 (fun _ => BackendResult.ok none) "hi").attempt_failures = 2) ∧
    (proxy_request 2 (fun _ => BackendResult.ok (some "ok")) "hi").attempt_failures = 0 ∧
    (proxy_request 2 (fun _ => BackendResult.ok (some "")) "hi").result =
      ProxyResult.success "" (max 1 (estimate_tokens (stripS "hi"))) 0) :=
  C3_empty_completion_amended 2 (by decide) "hi" "ok" (by decide)

/-! ## Claim C5 — semaphore conservation -/

/-- C5: every request that reaches the semaphore (nonempty stripped prompt)
acquires exactly one slot and releases exactly one slot, and for every
request whatsoever — success, timeout, exhausted retries, or an exception
raised mid-attempt — the number of releases equals the number of
acquisitions. -/
theorem C5_semaphore_balance (retry : Nat) (backend : Nat → BackendResult)
    (pr : String) (hp : (stripS pr).isEmpty = false) :
    (proxy_request retry backend pr).acquires = 1 ∧
    (proxy_request retry backend pr).releases = 1 ∧
    ∀ (r : Nat) (b : Nat → BackendResult) (q : String),
      (proxy_request r b q).acquires = (proxy_request r b q).releases := by
  refine ⟨?_, ?_, ?_⟩
  · rw [proxy_request_of_ne _ _ _ hp]
  · rw [proxy_request_of_ne _ _ _ hp]
  · intro r b q
    unfold proxy_request
    by_cases hq : (stripS q).isEmpty
    · simp [hq]
    · have ha := proxy_loop_acq_rel b (stripS q) r 1
      simp [hq, ha.1, ha.2]

/-- Witness for C5 at a concrete request. -/
theorem C5_semaphore_balance_witness :
    (proxy_request 3 (fun _ => BackendResult.timeout) "hi").acquires = 1 ∧
    (proxy_request 3 (fun _ => BackendResult.timeout) "hi").releases = 1 ∧
    ∀ (r : Nat) (b : Nat → BackendResult) (q : String),
      (proxy_request r b q).acquires = (proxy_request r b q).releases :=
  C5_semaphore_balance 3 (fun _ => BackendResult.timeout) "hi" (by decide)

/-! ## Claim C6 — token-count estimate -/

/-- C6 counterexample: on the 7-character, 1-word text `"abcdefg"` the
proxy's estimate is 1 while the spec's formula
`max(1, round((chars/4 + words*1.3)/2)) = round(1.525) = 2`. -/
theorem C6_token_estimate_cex :
    estimate_tokens "abcdefg" = 1 ∧ specTokenEstimate "abcdefg" = 2 ∧
    estimate_tokens "abcdefg" ≠ specTokenEstimate "abcdefg" := by
  refine ⟨by decide, by decide, by decide⟩

/-- C6 (amended): for every non-empty text the proxy's token-count estimate
equals `max(1, (max(1, chars // 4) + max(1, floor(words * 1.3))) // 2)` in
integer arithmetic, applied separately to the stripped prompt and to the
completion; the success response carries exactly these estimates, with an
empty completion given 0 tokens. -/
theorem C6_token_estimate_amended (retry : Nat) (hr : 1 ≤ retry) (pr c : String)
    (hp : (stripS pr).isEmpty = false) (hc : c.isEmpty = false) :
    (proxy_request retry (fun _ => BackendResult.ok (some c)) pr).result =
      ProxyResult.success c (estimate_tokens (stripS pr)) (estimate_tokens c) ∧
    ∀ s : String, s.isEmpty = false →
      estimate_tokens s = max 1 ((max 1 (s.toList.length / 4) +
        max 1 (13 * wordCount s.toList / 10)) / 2) := by
  constructor
  · obtain ⟨n, rfl⟩ : ∃ n, retry = n + 1 := ⟨retry - 1, by omega⟩
    rw [proxy_request_of_ne _ _ _ hp]
    rw [proxy_loop_first_success (fun _ => BackendResult.ok (some c))
      (stripS pr) c rfl n]
    have h1 := one_le_estimate_tokens (stripS pr) hp
    have h2 := one_le_estimate_tokens c hc
    simp only [hc, Bool.false_eq_true, if_false]
    rw [Nat.max_eq_right h1, Nat.max_eq_right h2]
  · intro s hs
    exact estimate_tokens_eq s hs

/-- Witness for C6 at a concrete success. -/
theorem C6_token_estimate_witness :
    (proxy_request 1 (fun _ => BackendResult.ok (some "hello world")) "hi").result =
      ProxyResult.success "hello world" (estimate_tokens (stripS "hi"))
        (estimate_tokens "hello world") ∧
    ∀ s : String, s.isEmpty = false →
      estimate_tokens s = max 1 ((max 1 (s.toList.length / 4) +
        max 1 (13 * wordCount s.toList / 10)) / 2) :=
  C6_token_estimate_amended 1 (by decide) "hi" "hello world" (by decide) (by decide)

/-! ## Claim C7 — input validation rejects without any downstream work -/

/-- C7: a prompt that is empty after trimming, or longer than 50,000
characters, is rejected with the 400-equivalent `InvalidInput` failure
before any downstream attempt: no invocation, no retry sleep, no
attempt-failure telemetry event, and no semaphore slot consumed. -/
theorem C7_invalid_input (retry : Nat) (backend : Nat → BackendResult)
    (pr : String) (h : (stripS pr).isEmpty = true ∨ 50000 < pr.length) :
    llm_completion retry backend pr =
      { result := ProxyResult.httpError 400, invocations := 0,
        attempt_failures := 0, sleeps := [], acquires := 0, releases := 0 } := by
  unfold llm_completion
  rcases h with h | h
  · simp [h]
  · by_cases hs : (stripS pr).isEmpty
    · simp [hs]
    · have hlen : pr.isEmpty = false := by
        rcases he : pr.isEmpty with _ | _
        · rfl
        · rw [String.isEmpty_iff] at he
          rw [he] at h
          simp at h
      simp [hs, hlen, h]

/-- Witness for C7 at a whitespace-only prompt. -/
theorem C7_invalid_input_witness :
    llm_completion 3 (fun _ => BackendResult.err "x") " " =
      { result := ProxyResult.httpError 400, invocations := 0,
        attempt_failures := 0, sleeps := [], acquires := 0, releases := 0 } :=
  C7_invalid_input 3 (fun _ => BackendResult.err "x") " " (Or.inl (by decide))

/-! ## Database helper lemmas -/

/-- A failing primary write always lands the event in the CSV file,
whatever mode the store was in. -/
lemma log_telemetry_false_csv (e : Event) (st : DbState) :
    (log_telemetry false e st).csvFile = some (st.csvFile.getD [] ++ [e]) := by
  unfold log_telemetry log_to_csv
  by_cases h : st.use_csv_fallback <;> simp [h]

/-- In fallback mode every `log_telemetry` call appends to the CSV file,
regardless of whether the primary would have been available. -/
lemma log_telemetry_fallback_csv (pOk : Bool) (e : Event) (st : DbState)
    (h : st.use_csv_fallback = true) :
    (log_telemetry pOk e st).csvFile = some (st.csvFile.getD [] ++ [e]) := by
  simp [log_telemetry, h, log_to_csv]

/-- CSV contents only grow under `log_telemetry` with a failing primary. -/
lemma run_log_csv_mono (es : List Event) (st : DbState) (x : Event)
    (hx : x ∈ st.csvFile.getD []) : x ∈ (run_log es st).csvFile.getD [] := by
  induction es generalizing st with
  | nil => simpa [run_log]
  | cons e t ih =>
    have hstep : run_log (e :: t) st = run_log t (log_telemetry false e st) := rfl
    rw [hstep]
    apply ih
    rw [log_telemetry_false_csv]
    simp only [Option.getD_some]
    exact List.mem_append_left _ hx

/-- Every event of a sequence of failing-primary `record` calls is found in
the final CSV file. -/
lemma run_log_complete (es : List Event) (st : DbState) :
    ∀ x ∈ es, x ∈ (run_log es st).csvFile.getD [] := by
  induction es generalizing st with
  | nil =>
    intro x hx
    cases hx
  | cons e t ih =>
    intro x hx
    have hstep : run_log (e :: t) st = run_log t (log_telemetry false e st) := rfl
    rw [hstep]
    rcases List.mem_cons.mp hx with h | h
    · subst h
      apply run_log_csv_mono
      rw [log_telemetry_false_csv]
      simp
    · exact ih _ x h

/-- `aggregateMetrics` keeps the status tag of the base dictionary. -/
lemma aggregateMetrics_status (now : Nat) (rows : List Event) (base : Metrics) :
    (aggregateMetrics now rows base).database_status = base.database_status := rfl

/-- The CSV branch of `get_metrics` always reports status `"fallback"`. -/
lemma fb_branch_status (now : Nat) (csvOk : Bool) (st : DbState) :
    (fb_branch now csvOk st).1.database_status = "fallback" := by
  unfold fb_branch
  cases csvOk
  · rfl
  · cases st.csvFile <;> rfl

/-- The CSV branch of `get_metrics` only updates the cache fields. -/
lemma fb_branch_flag (now : Nat) (csvOk : Bool) (st : DbState) :
    (fb_branch now csvOk st).2.use_csv_fallback = st.use_csv_fallback := rfl

/-! ## Claim C1 — no event loss on primary-write failure -/

/-- C1: a `log_telemetry` call in primary mode whose primary write raises
switches the store to fallback mode and writes the same event to the CSV
path; and for any sequence of `record` calls with the primary unavailable,
every event appears in the final CSV store. -/
theorem C1_no_event_loss (st : DbState) (hconn : st.use_csv_fallback = false)
    (e : Event) (es : List Event) :
    ((log_telemetry false e st).use_csv_fallback = true ∧
      (log_telemetry false e st).csvFile = some (st.csvFile.getD [] ++ [e])) ∧
    ∀ x ∈ es, x ∈ (run_log es st).csvFile.getD [] := by
  refine ⟨⟨?_, log_telemetry_false_csv e st⟩, run_log_complete es st⟩
  simp [log_telemetry, hconn, log_to_csv]

/-- A fresh connected-mode store state. -/
def st0 : DbState :=
  { use_csv_fallback := false, csv_dir_exists := false, primary := [],
    connection_logs := [], csvFile := none,
    metrics_cache := zeroMetrics "connected", metrics_last_update := 0 }

/-- A sample telemetry event. -/
def ev0 : Event :=
  { event_type := "llm_request", status_code := 200, latency_ms := none,
    total_tokens := none, timestamp := 0 }

/-- Witness for C1 at a concrete store state and event sequence. -/
theorem C1_no_event_loss_witness :
    ((log_telemetry false ev0 st0).use_csv_fallback = true ∧
      (log_telemetry false ev0 st0).csvFile = some (st0.csvFile.getD [] ++ [ev0])) ∧
    ∀ x ∈ [ev0], x ∈ (run_log [ev0] st0).csvFile.getD [] :=
  C1_no_event_loss st0 rfl ev0 [ev0]

/-! ## Claim C4 — fallback mode is absorbing and shuts out the primary -/

/-- Once in fallback mode, a single operation of any kind stays in fallback
mode and never attempts the primary backend. -/
lemma db_step_fallback (op : DbOp) (st : DbState)
    (h : st.use_csv_fallback = true) :
    (db_step op st).1.use_csv_fallback = true ∧ (db_step op st).2 = false := by
  cases op with
  | logTel pOk e => simp [db_step, log_telemetry, log_to_csv, h]
  | logConn pOk e => simp [db_step, log_connection_event, log_to_csv, h]
  | getMetrics now mOk cOk =>
    refine ⟨?_, by simp [db_step, h]⟩
    simp only [db_step, get_metrics, h]
    by_cases hc : now - st.metrics_last_update < 60
    · simp [hc, h]
    · simp [hc, fb_branch_flag, h]

/-- C4: once the store has entered fallback mode, no operation of any
subsequent sequence — telemetry write, lifecycle write, or metrics read —
attempts the primary backend, and the store never returns to connected
mode. -/
theorem C4_one_way_fallback (st : DbState) (h : st.use_csv_fallback = true)
    (ops : List DbOp) :
    (run_steps ops st).1.use_csv_fallback = true ∧
    ∀ b ∈ (run_steps ops st).2, b = false := by
  induction ops generalizing st with
  | nil =>
    exact ⟨h, by intro b hb; cases hb⟩
  | cons op t ih =>
    have hs := db_step_fallback op st h
    have hrest := ih (db_step op st).1 hs.1
    constructor
    · simpa [run_steps] using hrest.1
    · intro b hb
      simp only [run_steps, List.mem_cons] at hb
      rcases hb with hb | hb
      · rw [hb]
        exact hs.2
      · exact hrest.2 b hb

/-- A store state already in fallback mode. -/
def st1 : DbState :=
  { use_csv_fallback := true, csv_dir_exists := true, primary := [],
    connection_logs := [], csvFile := some [],
    metrics_cache := zeroMetrics "fallback", metrics_last_update := 0 }

/-- Witness for C4 at a concrete fallback-mode state and operation list. -/
theorem C4_one_way_fallback_witness :
    (run_steps [DbOp.logTel true ev0, DbOp.getMetrics 100 true true,
      DbOp.logConn false ev0] st1).1.use_csv_fallback = true ∧
    ∀ b ∈ (run_steps [DbOp.logTel true ev0, DbOp.getMetrics 100 true true,
      DbOp.logConn false ev0] st1).2, b = false :=
  C4_one_way_fallback st1 rfl
    [DbOp.logTel true ev0, DbOp.getMetrics 100 true true, DbOp.logConn false ev0]

/-! ## Claim C9 — degraded metrics are never tagged "error" -/

/-- C9 counterexample: a stale-cache `get_metrics` call in connected mode
whose MongoDB recomputation fails, with no CSV directory on disk, returns
the zero-valued metrics still tagged `"connected"` — not `"error"` as the
claim states (and the CSV-mode failure path tags `"fallback"`). -/
theorem C9_metrics_error_tag_cex :
    60 ≤ 1000 - st0.metrics_last_update ∧
    (get_metrics 1000 false false st0).1 = zeroMetrics "connected" ∧
    "connected" ≠ "error" ∧
    (get_metrics 1000 false false st1).1.database_status = "fallback" := by
  refine ⟨by decide, by decide, by decide, by decide⟩

/-- C9 (amended): a stale-cache `get_metrics` call whose recomputation from
the active backend fails never raises and never tags the result `"error"`:
in fallback mode a CSV failure returns the zero-valued metrics tagged
`"fallback"`; in connected mode a MongoDB failure recomputes from the CSV
fallback (result tagged `"fallback"`) when the CSV directory exists, and
otherwise returns the zero-valued metrics still tagged `"connected"`. -/
theorem C9_metrics_error_tag_amended (now : Nat) (csvOk : Bool)
    (st : DbState) (hstale : 60 ≤ now - st.metrics_last_update) :
    (st.use_csv_fallback = true →
      (get_metrics now false false st).1 = zeroMetrics "fallback") ∧
    (st.use_csv_fallback = false → st.csv_dir_exists = true →
      (get_metrics now false csvOk st).1.database_status = "fallback") ∧
    (st.use_csv_fallback = false → st.csv_dir_exists = false →
      (get_metrics now false csvOk st).1 = zeroMetrics "connected") := by
  have h60 : ¬ (now - st.metrics_last_update < 60) := by omega
  refine ⟨?_, ?_, ?_⟩
  · intro hfb
    simp [get_metrics, h60, hfb, fb_branch]
  · intro hconn hdir
    simp only [get_metrics, h60, hconn, hdir, Bool.false_eq_true, if_false,
      if_true, if_neg, ite_true, ite_false]
    rw [fb_branch_status]
  · intro hconn hdir
    simp [get_metrics, h60, hconn, hdir]

/-- Witness for C9 at a concrete connected-mode state. -/
theorem C9_metrics_error_tag_witness :
    (st0.use_csv_fallback = true →
      (get_metrics 1000 false false st0).1 = zeroMetrics "fallback") ∧
    (st0.use_csv_fallback = false → st0.csv_dir_exists = true →
      (get_metrics 1000 false true st0).1.database_status = "fallback") ∧
    (st0.use_csv_fallback = false → st0.csv_dir_exists = false →
      (get_metrics 1000 false true st0).1 = zeroMetrics "connected") :=
  C9_metrics_error_tag_amended 1000 true st0 (by decide)

/-! ## Claim C10 — a failed primary metrics read switches the store to CSV -/

/-- C10 counterexample: in connected mode with a stale cache and a failing
MongoDB recomputation, when the CSV fallback directory does **not** exist
the call leaves the fallback flag unset — the claimed unconditional
metrics-read switch to fallback does not happen. -/
theorem C10_metrics_read_fallback_cex :
    st0.use_csv_fallback = false ∧
    60 ≤ 1000 - st0.metrics_last_update ∧
    (get_metrics 1000 false true st0).2.use_csv_fallback = false := by
  refine ⟨by decide, by decide, by decide⟩

/-- C10 (amended): in connected mode with a stale cache, when the MongoDB
recomputation fails **and the CSV fallback directory exists**, the
`get_metrics` call itself sets the fallback flag and recomputes from the
CSV branch (result tagged `"fallback"`), and every subsequent telemetry
write of the process then lands in the CSV file regardless of primary
availability. -/
theorem C10_metrics_read_fallback_amended (now : Nat) (csvOk : Bool)
    (st : DbState) (hstale : 60 ≤ now - st.metrics_last_update)
    (hconn : st.use_csv_fallback = false) (hdir : st.csv_dir_exists = true) :
    (get_metrics now false csvOk st).2.use_csv_fallback = true ∧
    (get_metrics now false csvOk st).1.database_status = "fallback" ∧
    ∀ (pOk : Bool) (e : Event),
      (log_telemetry pOk e (get_metrics now false csvOk st).2).csvFile =
        some ((get_metrics now false csvOk st).2.csvFile.getD [] ++ [e]) := by
  have h60 : ¬ (now - st.metrics_last_update < 60) := by omega
  have hmain : get_metrics now false csvOk st =
      fb_branch now csvOk { st with use_csv_fallback := true } := by
    simp [get_metrics, h60, hconn, hdir]
  have hflag : (get_metrics now false csvOk st).2.use_csv_fallback = true := by
    rw [hmain, fb_branch_flag]
  refine ⟨hflag, ?_, ?_⟩
  · rw [hmain, fb_branch_status]
  · intro pOk e
    exact log_telemetry_fallback_csv pOk e _ hflag

/-- A connected-mode store state whose CSV directory exists. -/
def st2 : DbState :=
  { use_csv_fallback := false, csv_dir_exists := true, primary := [],
    connection_logs := [], csvFile := none,
    metrics_cache := zeroMetrics "connected", metrics_last_update := 0 }

/-- Witness for C10 at a concrete connected-mode state with a CSV dir. -/
theorem C10_metrics_read_fallback_witness :
    (get_metrics 1000 false true st2).2.use_csv_fallback = true ∧
    (get_metrics 1000 false true st2).1.database_status = "fallback" ∧
    ∀ (pOk : Bool) (e : Event),
      (log_telemetry pOk e (get_metrics 1000 false true st2).2).csvFile =
        some ((get_metrics 1000 false true st2).2.csvFile.getD [] ++ [e]) :=
  C10_metrics_read_fallback_amended 1000 true st2 (by decide) rfl rfl

/-! ## Claim C8 — rate-limit window behaviour at limit 3 -/

/-- C8: with a per-window limit of 3 and the fixed 60-second window, the
first three requests of one client inside the window are admitted, a fourth
request inside the same window is rejected with a Retry-After hint equal to
the remaining window time, and a request 61 seconds after the window start
is admitted again (the bucket has been reset). -/
theorem C8_rate_window (ip t0 t1 t2 t3 : Nat) (h01 : t0 ≤ t1) (h12 : t1 ≤ t2)
    (h23 : t2 ≤ t3) (hW : t3 < t0 + 60) :
    (rl_dispatch 3 ip t0 []).1 = RateDecision.admitted ∧
    (rl_dispatch 3 ip t1 (rl_dispatch 3 ip t0 []).2).1 = RateDecision.admitted ∧
    (rl_dispatch 3 ip t2 (rl_dispatch 3 ip t1
      (rl_dispatch 3 ip t0 []).2).2).1 = RateDecision.admitted ∧
    (rl_dispatch 3 ip t3 (rl_dispatch 3 ip t2 (rl_dispatch 3 ip t1
      (rl_dispatch 3 ip t0 []).2).2).2).1 =
      RateDecision.rejected (60 - (t3 - t0)) ∧
    (rl_dispatch 3 ip (t0 + 61) (rl_dispatch 3 ip t3 (rl_dispatch 3 ip t2
      (rl_dispatch 3 ip t1 (rl_dispatch 3 ip t0 []).2).2).2).2).1 =
      RateDecision.admitted := by
  have hw1 : t1 - t0 < 60 := by omega
  have hw2 : t2 - t0 < 60 := by omega
  have hw3 : t3 - t0 < 60 := by omega
  have e1 : rl_dispatch 3 ip t0 [] =
      (RateDecision.admitted,
        [{ key := ip, requests := 1, window_start := t0 }]) := rfl
  have e2 : rl_dispatch 3 ip t1
      [{ key := ip, requests := 1, window_start := t0 }] =
      (RateDecision.admitted,
        [{ key := ip, requests := 2, window_start := t0 }]) := by
    simp [rl_dispatch, rl_cleanup, rl_set, hw1]
  have e3 : rl_dispatch 3 ip t2
      [{ key := ip, requests := 2, window_start := t0 }] =
      (RateDecision.admitted,
        [{ key := ip, requests := 3, window_start := t0 }]) := by
    simp [rl_dispatch, rl_cleanup, rl_set, hw2]
  have e4 : rl_dispatch 3 ip t3
      [{ key := ip, requests := 3, window_start := t0 }] =
      (RateDecision.rejected (60 - (t3 - t0)),
        [{ key := ip, requests := 3, window_start := t0 }]) := by
    simp [rl_dispatch, rl_cleanup, rl_set, hw3]
  have e5 : rl_dispatch 3 ip (t0 + 61)
      [{ key := ip, requests := 3, window_start := t0 }] =
      (RateDecision.admitted,
        [{ key := ip, requests := 1, window_start := t0 + 61 }]) := by
    have hg : ¬ (t0 + 61 - t0 < 60) := by omega
    simp [rl_dispatch, rl_cleanup, rl_set, hg]
  rw [e1, e2, e3, e4, e5]
  exact ⟨rfl, rfl, rfl, rfl, rfl⟩

/-- Witness for C8 at concrete request times. -/
theorem C8_rate_window_witness :
    (rl_dispatch 3 7 0 []).1 = RateDecision.admitted ∧
    (rl_dispatch 3 7 10 (rl_dispatch 3 7 0 []).2).1 = RateDecision.admitted ∧
    (rl_dispatch 3 7 20 (rl_dispatch 3 7 10
      (rl_dispatch 3 7 0 []).2).2).1 = RateDecision.admitted ∧
    (rl_dispatch 3 7 30 (rl_dispatch 3 7 20 (rl_dispatch 3 7 10
      (rl_dispatch 3 7 0 []).2).2).2).1 =
      RateDecision.rejected (60 - (30 - 0)) ∧
    (rl_dispatch 3 7 (0 + 61) (rl_dispatch 3 7 30 (rl_dispatch 3 7 20
      (rl_dispatch 3 7 10 (rl_dispatch 3 7 0 []).2).2).2).2).1 =
      RateDecision.admitted :=
  C8_rate_window 7 0 10 20 30 (by decide) (by decide) (by decide) (by decide)

end DgenPing
